import Mathlib

/-!
Formal model of metashare/accounts/django_password_validators.py.

Passwords and other Python strings handled character by character are modelled
as List Char; character classes (digit, upper, lower, word) are modelled on the
ASCII range, which is the range the specified behaviour exercises. Python floats
(similarity ratios, max_similarity) are modelled as exact rationals; for the
string lengths involved the float comparisons of the source agree with the
rational ones. File input (the common password list) is modelled as an ambient
loader function from path to lines.
-/

namespace DjangoPasswordValidators

/-- A ValidationError as raised by the validators: a message template, a short
machine-readable code, and interpolation params (numbers rendered as decimal
strings). An absent params mapping is modelled as the empty list. -/
structure ValidationError where
  message : String
  code : String
  params : List (String × String)
deriving DecidableEq

/-- Python str.lower, on the ASCII range. -/
def pyLower (s : List Char) : List Char := s.map Char.toLower

/-- Python str.strip with no argument: remove leading and trailing whitespace. -/
def pyStrip (s : List Char) : List Char :=
  ((s.dropWhile Char.isWhitespace).reverse.dropWhile Char.isWhitespace).reverse

/-- Python str.isdigit: true iff the string is nonempty and every character is
a digit. -/
def pyIsDigit (s : List Char) : Bool := !s.isEmpty && s.all Char.isDigit

/-- string.punctuation from the Python standard library. -/
def pyPunctuation : List Char := "!\"#$%&\x27()*+,-./:;<=>?@[\\]^_`\x7b|\x7d~".data

/-- Membership in the regex word class \w: letters, digits and underscore. -/
def isWordChar (c : Char) : Bool := c.isAlphanum || c == '_'

/-- re.split on a pattern of one-or-more non-word characters: split the string
at every maximal run of non-word characters, keeping the empty pieces that
re.split produces when the string starts or ends with such a run. A word
character extends the first piece; a non-word character contributes a fresh
empty piece exactly where its run ends (at a following word character or at
the end of the string) and is otherwise absorbed by the run. -/
def reSplitW : List Char → List (List Char)
  | [] => [[]]
  | c :: rest =>
    let r := reSplitW rest
    if isWordChar c then
      match r with
      | [] => [[c]]
      | p :: ps => (c :: p) :: ps
    else
      match rest with
      | [] => [] :: r
      | d :: _ => if isWordChar d then [] :: r else r

/-- The match count of difflib SequenceMatcher.quick_ratio: the size of the
multiset intersection of the two character sequences. -/
def qrMatches (a b : List Char) : Nat := (a.bagInter b).length

/-- difflib SequenceMatcher.quick_ratio as an exact rational: 2*M/T where M is
the multiset-intersection size and T the combined length, and 1 when both
strings are empty (difflib private ratio calculation). -/
def quickRatio (a b : List Char) : ℚ :=
  if a.length + b.length = 0 then 1
  else 2 * (qrMatches a b : ℚ) / ((a.length : ℚ) + (b.length : ℚ))

/-- A Python value that is either a string or a tuple of strings: the type of
the user_attributes constructor argument. Iterating a string yields its
characters as one-character strings. -/
inductive PyStrOrTuple where
  | str (s : String)
  | tuple (l : List String)
deriving DecidableEq

/-- Iteration over a user_attributes value, as a Python for-loop sees it: a
tuple yields its elements, a string yields its one-character substrings. -/
def PyStrOrTuple.iterNames : PyStrOrTuple → List String
  | .str s => s.data.map (fun c => String.mk [c])
  | .tuple l => l

/-- The slice of a Django user object the validators consult: getattr for
string-valued attributes (a missing attribute or a non-string value is
modelled as none, which the source skips identically), and the verbose_name of
the field of that name from the user model metadata. -/
structure User where
  getattr : String → Option (List Char)
  verbose_name : String → String

/-- MinimumLengthValidator.validate for a validator holding min_length. -/
def MinimumLengthValidator.validate (min_length : Nat) (password : List Char) :
    Option ValidationError :=
  if password.length < min_length then
    some { message :=
             if min_length = 1 then
               "This password is too short. It must contain at least %(min_length)d character."
             else
               "This password is too short. It must contain at least %(min_length)d characters."
         , code := "password_too_short"
         , params := [("min_length", toString min_length)] }
  else none

/-- CommonPasswordValidator.validate for a validator whose constructor loaded
the given password set (lines already stripped at construction time). -/
def CommonPasswordValidator.validate (passwords : List (List Char))
    (password : List Char) : Option ValidationError :=
  if passwords.contains (pyStrip (pyLower password)) then
    some { message := "This password is too common."
         , code := "password_too_common", params := [] }
  else none

/-- NumericPasswordValidator.validate: reject passwords for which str.isdigit
holds. -/
def NumericPasswordValidator.validate (password : List Char) :
    Option ValidationError :=
  if pyIsDigit password then
    some { message := "This password is entirely numeric."
         , code := "password_entirely_numeric", params := [] }
  else none

/-- AtLeastOneDigitValidator.validate. -/
def AtLeastOneDigitValidator.validate (password : List Char) :
    Option ValidationError :=
  if !(password.any Char.isDigit) then
    some { message := "This password does not contain a digit."
         , code := "password_without_digit", params := [] }
  else none

/-- AtLeastOnePunctuationCharacterValidator.validate: a space or a character of
string.punctuation counts. -/
def AtLeastOnePunctuationCharacterValidator.validate (password : List Char) :
    Option ValidationError :=
  if !(password.any (fun c => c == ' ' || pyPunctuation.contains c)) then
    some { message := "This password does not contain a punctuation character."
         , code := "password_without_punctuation", params := [] }
  else none

/-- AtLeastOneUppercaseCharacterValidator.validate. -/
def AtLeastOneUppercaseCharacterValidator.validate (password : List Char) :
    Option ValidationError :=
  if !(password.any Char.isUpper) then
    some { message := "This password does not contain an uppercase character."
         , code := "password_without_uppercase", params := [] }
  else none

/-- AtLeastOneLowercaseCharacterValidator.validate. -/
def AtLeastOneLowercaseCharacterValidator.validate (password : List Char) :
    Option ValidationError :=
  if !(password.any Char.isLower) then
    some { message := "This password does not contain a lowercase character."
         , code := "password_without_lowercase", params := [] }
  else none

/-- NoRepeatsValidator.validate for a validator holding max_repeats: the source
iterates over set(password) and tests whether the character repeated
max_repeats+1 times is a substring of the password; the any over the password
itself decides the same condition. -/
def NoRepeatsValidator.validate (max_repeats : Nat) (password : List Char) :
    Option ValidationError :=
  if password.any (fun c => decide (List.replicate (max_repeats + 1) c <:+: password)) then
    some { message := "This password contains a character repeated more than " ++
             toString max_repeats ++ " times in a row."
         , code := "password_contains_repeats", params := [] }
  else none

/-- The default user_attributes of UserAttributeSimilarityValidator. The source
writes ('username'), which is the plain string "username", not a one-element
tuple. -/
def DEFAULT_USER_ATTRIBUTES : PyStrOrTuple := .str "username"

/-- The rejection test UserAttributeSimilarityValidator.validate applies to one
candidate part: similarity > max_similarity or similarity == 1 or
max_similarity == 0, with similarity the quick_ratio of the lowercased
password and part. -/
def similarityTriggered (max_similarity : ℚ) (password part : List Char) : Bool :=
  let similarity := quickRatio (pyLower password) (pyLower part)
  decide (max_similarity < similarity) || decide (similarity = 1) ||
    decide (max_similarity = 0)

/-- The body of the attribute loop of
UserAttributeSimilarityValidator.validate for one attribute name: a missing,
falsy (empty) or non-string attribute value is skipped; the candidate parts of
a value are its non-word-split pieces followed by the value itself, and any
triggering part raises with the verbose name of the attribute field. -/
def attrCheck (max_similarity : ℚ) (password : List Char) (u : User)
    (attribute_name : String) : Option ValidationError :=
  match u.getattr attribute_name with
  | none => none
  | some value =>
    if value.isEmpty then none
    else
      let value_parts := reSplitW value ++ [value]
      if value_parts.any (fun part => similarityTriggered max_similarity password part) then
        some { message := "The password is too similar to the %(verbose_name)s."
             , code := "password_too_similar"
             , params := [("verbose_name", u.verbose_name attribute_name)] }
      else none

/-- UserAttributeSimilarityValidator.validate for a validator holding
user_attributes and max_similarity. A falsy (None) user passes; otherwise the
attribute names are scanned in order and the first attribute with a
triggering part raises. -/
def UserAttributeSimilarityValidator.validate (user_attributes : PyStrOrTuple)
    (max_similarity : ℚ) (password : List Char) (user : Option User) :
    Option ValidationError :=
  match user with
  | none => none
  | some u =>
    user_attributes.iterNames.findSome? (attrCheck max_similarity password u)

/-- A constructed validator instance: the nine classes of the module, each
holding the state its constructor bound. The CommonPasswordValidator instance
holds the password set its constructor loaded. -/
inductive Validator where
  | minimumLength (min_length : Nat)
  | userAttributeSimilarity (user_attributes : PyStrOrTuple) (max_similarity : ℚ)
  | commonPassword (passwords : List (List Char))
  | numericPassword
  | atLeastOneDigit
  | atLeastOnePunctuation
  | atLeastOneUppercase
  | atLeastOneLowercase
  | noRepeats (max_repeats : Nat)
deriving DecidableEq

/-- Dispatch validate over the nine validator classes. -/
def Validator.validate : Validator → List Char → Option User → Option ValidationError
  | .minimumLength n, pw, _ => MinimumLengthValidator.validate n pw
  | .userAttributeSimilarity ua ms, pw, u => UserAttributeSimilarityValidator.validate ua ms pw u
  | .commonPassword ps, pw, _ => CommonPasswordValidator.validate ps pw
  | .numericPassword, pw, _ => NumericPasswordValidator.validate pw
  | .atLeastOneDigit, pw, _ => AtLeastOneDigitValidator.validate pw
  | .atLeastOnePunctuation, pw, _ => AtLeastOnePunctuationCharacterValidator.validate pw
  | .atLeastOneUppercase, pw, _ => AtLeastOneUppercaseCharacterValidator.validate pw
  | .atLeastOneLowercase, pw, _ => AtLeastOneLowercaseCharacterValidator.validate pw
  | .noRepeats n, pw, _ => NoRepeatsValidator.validate n pw

/-- validate_password: run every configured validator, collecting each raised
ValidationError in validator order, and raise the aggregate when at least one
failed; return unit when none did. The None default for the validator list
goes through process settings and is outside this model, so callers pass the
list explicitly. -/
def validate_password (password : List Char) (user : Option User)
    (password_validators : List Validator) : Except (List ValidationError) Unit :=
  let errors := password_validators.filterMap (fun v => v.validate password user)
  if errors.isEmpty then Except.ok () else Except.error errors

/-- get_help_text of each validator class, with the numeric interpolation the
source applies before returning (ungettext picks the singular form exactly for
the number one). -/
def Validator.get_help_text : Validator → String
  | .minimumLength n =>
      "Your password must contain at least " ++ toString n ++
        (if n = 1 then " character." else " characters.")
  | .userAttributeSimilarity _ _ =>
      "Your password can\x27t be too similar to your other personal information."
  | .commonPassword _ => "Your password can\x27t be a commonly used password."
  | .numericPassword => "Your password can\x27t be entirely numeric."
  | .atLeastOneDigit => "Your password must contain at least one digit."
  | .atLeastOnePunctuation => "Your password must contain at least one punctuation character."
  | .atLeastOneUppercase => "Your password must contain at least one uppercase character."
  | .atLeastOneLowercase => "Your password must contain at least one lowercase character."
  | .noRepeats n =>
      "Your password can\x27t contain a character repeated more than " ++ toString n ++
        " times in a row."

/-- password_validators_help_texts: every help text, in configured order. -/
def password_validators_help_texts (password_validators : List Validator) : List String :=
  password_validators.map Validator.get_help_text

/-- django.utils.html escaping of a single character, as the source five
replacements produce. -/
def escapeChar (c : Char) : String :=
  if c = '&' then "&amp;"
  else if c = '<' then "&lt;"
  else if c = '>' then "&gt;"
  else if c = Char.ofNat 34 then "&quot;"
  else if c = Char.ofNat 39 then "&#x27;"
  else String.mk [c]

/-- django.utils.html escape of a string. -/
def escapeHtml (s : String) : String := String.join (s.data.map escapeChar)

/-- password_validators_help_text_html: the empty string for an empty help-text
list, else an unordered list with one escaped list item per help text. The
outer format_html call interpolates the already-safe joined items without
re-escaping them. -/
def password_validators_help_text_html (password_validators : List Validator) : String :=
  let help_texts := password_validators_help_texts password_validators
  if help_texts.isEmpty then ""
  else
    "<ul>" ++
      String.join (help_texts.map (fun t => "<li>" ++ escapeHtml t ++ "</li>")) ++
      "</ul>"

/-- The nine importable validator classes of the module. -/
inductive ValidatorClass where
  | minimumLengthC
  | userAttributeSimilarityC
  | commonPasswordC
  | numericPasswordC
  | atLeastOneDigitC
  | atLeastOnePunctuationC
  | atLeastOneUppercaseC
  | atLeastOneLowercaseC
  | noRepeatsC
deriving DecidableEq

/-- The dynamic lookup import_string restricted to this module: the dotted
path of each of the nine validator classes resolves to that class, and any
other path fails to resolve (none), which the caller turns into
ImproperlyConfigured. -/
def import_string (name : String) : Option ValidatorClass :=
  if name = "metashare.accounts.django_password_validators.MinimumLengthValidator" then
    some .minimumLengthC
  else if name = "metashare.accounts.django_password_validators.UserAttributeSimilarityValidator" then
    some .userAttributeSimilarityC
  else if name = "metashare.accounts.django_password_validators.CommonPasswordValidator" then
    some .commonPasswordC
  else if name = "metashare.accounts.django_password_validators.NumericPasswordValidator" then
    some .numericPasswordC
  else if name = "metashare.accounts.django_password_validators.AtLeastOneDigitValidator" then
    some .atLeastOneDigitC
  else if name = "metashare.accounts.django_password_validators.AtLeastOnePunctuationCharacterValidator" then
    some .atLeastOnePunctuationC
  else if name = "metashare.accounts.django_password_validators.AtLeastOneUppercaseCharacterValidator" then
    some .atLeastOneUppercaseC
  else if name = "metashare.accounts.django_password_validators.AtLeastOneLowercaseCharacterValidator" then
    some .atLeastOneLowercaseC
  else if name = "metashare.accounts.django_password_validators.NoRepeatsValidator" then
    some .noRepeatsC
  else none

/-- The OPTIONS mapping of a configuration record: the keyword arguments the
nine constructors accept, each absent when the key is absent. -/
structure Options where
  min_length : Option Nat := none
  max_similarity : Option ℚ := none
  user_attributes : Option PyStrOrTuple := none
  max_repeats : Option Nat := none
  password_list_path : Option String := none
deriving DecidableEq

/-- The default common-password list path of CommonPasswordValidator, the
bundled common-passwords.txt.gz next to the module. -/
def DEFAULT_PASSWORD_LIST_PATH : String := "common-passwords.txt.gz"

/-- klass(**OPTIONS): construct a validator of a resolved class from its
options, applying the source constructor default for every absent option. The
common-password file is read through the ambient loader from path to lines,
and the constructor strips each line into the password set. -/
def buildValidator (load : String → List (List Char)) (k : ValidatorClass)
    (opts : Options) : Validator :=
  match k with
  | .minimumLengthC => .minimumLength (opts.min_length.getD 8)
  | .userAttributeSimilarityC =>
      .userAttributeSimilarity (opts.user_attributes.getD DEFAULT_USER_ATTRIBUTES)
        (opts.max_similarity.getD (1 / 2))
  | .commonPasswordC =>
      .commonPassword ((load (opts.password_list_path.getD DEFAULT_PASSWORD_LIST_PATH)).map pyStrip)
  | .numericPasswordC => .numericPassword
  | .atLeastOneDigitC => .atLeastOneDigit
  | .atLeastOnePunctuationC => .atLeastOnePunctuation
  | .atLeastOneUppercaseC => .atLeastOneUppercase
  | .atLeastOneLowercaseC => .atLeastOneLowercase
  | .noRepeatsC => .noRepeats (opts.max_repeats.getD 2)

/-- One AUTH_PASSWORD_VALIDATORS record: a dotted NAME and an OPTIONS mapping,
empty when the key is absent. -/
structure ValidatorConfig where
  NAME : String
  OPTIONS : Options := {}

/-- get_password_validators: resolve each record NAME in order, raising
ImproperlyConfigured with a message naming the offending NAME at the first
record that does not import, and otherwise return the validators constructed
from each record in order. -/
def get_password_validators (load : String → List (List Char)) :
    List ValidatorConfig → Except String (List Validator)
  | [] => Except.ok []
  | c :: rest =>
    match import_string c.NAME with
    | none =>
        Except.error ("The module in NAME could not be imported: " ++ c.NAME ++
          ". Check your AUTH_PASSWORD_VALIDATORS setting.")
    | some k =>
        match get_password_validators load rest with
        | Except.ok vs => Except.ok (buildValidator load k c.OPTIONS :: vs)
        | Except.error e => Except.error e

/-- C7: MinimumLengthValidator.validate fails with code password_too_short on
every password strictly shorter than min_length and passes every password of
length at least min_length. -/
theorem minimum_length_spec (min_length : Nat) (password : List Char) :
    (password.length < min_length →
      ∃ e, MinimumLengthValidator.validate min_length password = some e ∧
        e.code = "password_too_short") ∧
    (min_length ≤ password.length →
      MinimumLengthValidator.validate min_length password = none) := by
  unfold MinimumLengthValidator.validate
  constructor
  · intro hlt
    rw [if_pos hlt]
    exact ⟨_, rfl, rfl⟩
  · intro hge
    rw [if_neg (Nat.not_lt.mpr hge)]

/-- Witness for C7 at min_length 8 and 3 with the five-character password
short. -/
theorem minimum_length_spec_witness :
    (∃ e, MinimumLengthValidator.validate 8 ("short".data) = some e ∧
      e.code = "password_too_short") ∧
    MinimumLengthValidator.validate 3 ("short".data) = none :=
  ⟨(minimum_length_spec 8 ("short".data)).1 (by decide),
   (minimum_length_spec 3 ("short".data)).2 (by decide)⟩

/-- C4 counterexample: the empty string has all of its (zero) characters
digits, yet NumericPasswordValidator passes it, because str.isdigit is false
on the empty string. -/
theorem numeric_password_cex :
    ([] : List Char).all Char.isDigit = true ∧
    NumericPasswordValidator.validate [] = none := by
  constructor
  · rfl
  · rfl

/-- C4 amended: a nonempty password all of whose characters are digits fails
with code password_entirely_numeric; a password containing a non-digit
character passes (alongside, the empty password passes). -/
theorem numeric_password_spec (password : List Char) :
    (password ≠ [] → (∀ c ∈ password, c.isDigit = true) →
      ∃ e, NumericPasswordValidator.validate password = some e ∧
        e.code = "password_entirely_numeric") ∧
    ((∃ c ∈ password, c.isDigit = false) →
      NumericPasswordValidator.validate password = none) := by
  unfold NumericPasswordValidator.validate pyIsDigit
  constructor
  · intro hne hall
    have h1 : password.isEmpty = false := by
      cases password with
      | nil => exact absurd rfl hne
      | cons a l => rfl
    have h2 : password.all Char.isDigit = true := List.all_eq_true.mpr hall
    rw [h1, h2]
    exact ⟨_, rfl, rfl⟩
  · rintro ⟨c, hc, hcd⟩
    have h2 : password.all Char.isDigit = false := by
      rw [Bool.eq_false_iff]
      intro hall
      rw [List.all_eq_true.mp hall c hc] at hcd
      cases hcd
    rw [h2]
    simp

/-- Witness for C4 amended at the all-digit password 123 and the mixed
password 12a. -/
theorem numeric_password_spec_witness :
    (∃ e, NumericPasswordValidator.validate ("123".data) = some e ∧
      e.code = "password_entirely_numeric") ∧
    NumericPasswordValidator.validate ("12a".data) = none :=
  ⟨(numeric_password_spec ("123".data)).1 (by decide) (by decide),
   (numeric_password_spec ("12a".data)).2 ⟨'a', by decide, by decide⟩⟩

/-- C5: NoRepeatsValidator.validate fails with code password_contains_repeats
exactly when some character of the password occurs max_repeats+1 times
consecutively somewhere in the password, independent of position; with
max_repeats 2 it fails on aaab and passes on aabaa. -/
theorem no_repeats_spec :
    (∀ (max_repeats : Nat) (password : List Char),
      ((∃ e, NoRepeatsValidator.validate max_repeats password = some e ∧
          e.code = "password_contains_repeats") ↔
        ∃ c ∈ password, List.replicate (max_repeats + 1) c <:+: password) ∧
      (NoRepeatsValidator.validate max_repeats password = none ↔
        ¬ ∃ c ∈ password, List.replicate (max_repeats + 1) c <:+: password)) ∧
    (∃ e, NoRepeatsValidator.validate 2 ("aaab".data) = some e ∧
      e.code = "password_contains_repeats") ∧
    NoRepeatsValidator.validate 2 ("aabaa".data) = none := by
  refine ⟨fun max_repeats password => ?_, ?_, by decide⟩
  · have key : (password.any
        (fun c => decide (List.replicate (max_repeats + 1) c <:+: password)) = true) ↔
        ∃ c ∈ password, List.replicate (max_repeats + 1) c <:+: password := by
      simp [List.any_eq_true]
    unfold NoRepeatsValidator.validate
    by_cases h : password.any
        (fun c => decide (List.replicate (max_repeats + 1) c <:+: password)) = true
    · rw [if_pos h]
      constructor
      · exact ⟨fun _ => key.mp h, fun _ => ⟨_, rfl, rfl⟩⟩
      · constructor
        · intro hnone
          cases hnone
        · intro hno
          exact absurd (key.mp h) hno
    · rw [if_neg h]
      constructor
      · constructor
        · rintro ⟨e, he, _⟩
          cases he
        · intro hex
          exact absurd (key.mpr hex) h
      · exact ⟨fun _ => fun hex => absurd (key.mpr hex) h, fun _ => rfl⟩
  · have h : NoRepeatsValidator.validate 2 ("aaab".data) =
        some { message := "This password contains a character repeated more than 2 times in a row."
             , code := "password_contains_repeats", params := [] } := by decide
    exact ⟨_, h, rfl⟩

/-- Witness for C5 general part: with max_repeats 1 the password bb fails and
the existential run is recovered; with the iff it passes nothing here beyond
the instantiation. -/
theorem no_repeats_spec_witness :
    (∃ e, NoRepeatsValidator.validate 1 ("abb".data) = some e ∧
      e.code = "password_contains_repeats") ∧
    NoRepeatsValidator.validate 1 ("ab".data) = none :=
  ⟨((no_repeats_spec.1 1 ("abb".data)).1).mpr ⟨'b', by decide, by decide⟩,
   ((no_repeats_spec.1 1 ("ab".data)).2).mpr (by decide)⟩

/-- C6: CommonPasswordValidator.validate fails with code password_too_common
exactly when the lowercased then trimmed candidate is in the loaded set; with
the set holding password and 123456 it fails on Password and on a
space-padded password and passes on Xk9!qzT2. -/
theorem common_password_spec :
    (∀ (passwords : List (List Char)) (password : List Char),
      ((∃ e, CommonPasswordValidator.validate passwords password = some e ∧
          e.code = "password_too_common") ↔
        pyStrip (pyLower password) ∈ passwords) ∧
      (CommonPasswordValidator.validate passwords password = none ↔
        pyStrip (pyLower password) ∉ passwords)) ∧
    (∃ e, CommonPasswordValidator.validate ["password".data, "123456".data]
        ("Password".data) = some e ∧ e.code = "password_too_common") ∧
    (∃ e, CommonPasswordValidator.validate ["password".data, "123456".data]
        (" password ".data) = some e ∧ e.code = "password_too_common") ∧
    CommonPasswordValidator.validate ["password".data, "123456".data]
      ("Xk9!qzT2".data) = none := by
  refine ⟨fun passwords password => ?_, ?_, ?_, by decide⟩
  · have key : (passwords.contains (pyStrip (pyLower password)) = true) ↔
        pyStrip (pyLower password) ∈ passwords := by
      simp
    unfold CommonPasswordValidator.validate
    by_cases h : passwords.contains (pyStrip (pyLower password)) = true
    · rw [if_pos h]
      constructor
      · exact ⟨fun _ => key.mp h, fun _ => ⟨_, rfl, rfl⟩⟩
      · constructor
        · intro hnone
          cases hnone
        · intro hno
          exact absurd (key.mp h) hno
    · rw [if_neg h]
      constructor
      · constructor
        · rintro ⟨e, he, _⟩
          cases he
        · intro hmem
          exact absurd (key.mpr hmem) h
      · exact ⟨fun _ => fun hmem => absurd (key.mpr hmem) h, fun _ => rfl⟩
  · have h : CommonPasswordValidator.validate ["password".data, "123456".data]
        ("Password".data) =
        some { message := "This password is too common."
             , code := "password_too_common", params := [] } := by decide
    exact ⟨_, h, rfl⟩
  · have h : CommonPasswordValidator.validate ["password".data, "123456".data]
        (" password ".data) =
        some { message := "This password is too common."
             , code := "password_too_common", params := [] } := by decide
    exact ⟨_, h, rfl⟩

/-- Witness for C6 general part at the singleton set abc. -/
theorem common_password_spec_witness :
    (∃ e, CommonPasswordValidator.validate ["abc".data] ("ABC".data) = some e ∧
      e.code = "password_too_common") ∧
    CommonPasswordValidator.validate ["abc".data] ("abd".data) = none :=
  ⟨((common_password_spec.1 ["abc".data] ("ABC".data)).1).mpr (by decide),
   ((common_password_spec.1 ["abc".data] ("abd".data)).2).mpr (by decide)⟩

/-- Unfolding lemma for password_validators_help_text_html. -/
theorem help_text_html_def (vs : List Validator) :
    password_validators_help_text_html vs =
      if (password_validators_help_texts vs).isEmpty then ""
      else
        "<ul>" ++
          String.join ((password_validators_help_texts vs).map
            (fun t => "<li>" ++ escapeHtml t ++ "</li>")) ++
          "</ul>" := rfl

/-- C8: the help-text aggregation renders the empty string exactly when the
validator sequence yields no help texts (in particular on the empty sequence,
where the help-text list is also empty), and otherwise an unordered list with
one escaped list item per help text, in configured order. -/
theorem help_text_html_spec :
    (password_validators_help_texts ([] : List Validator) = [] ∧
      password_validators_help_text_html [] = "") ∧
    (∀ vs : List Validator,
      (password_validators_help_text_html vs = "" ↔
        password_validators_help_texts vs = []) ∧
      (password_validators_help_texts vs ≠ [] →
        password_validators_help_text_html vs =
          "<ul>" ++
            String.join ((password_validators_help_texts vs).map
              (fun t => "<li>" ++ escapeHtml t ++ "</li>")) ++
            "</ul>")) := by
  refine ⟨⟨rfl, rfl⟩, fun vs => ?_⟩
  rw [help_text_html_def]
  by_cases h : (password_validators_help_texts vs).isEmpty = true
  · rw [if_pos h]
    exact ⟨⟨fun _ => List.isEmpty_iff.mp h, fun _ => rfl⟩,
      fun hne => absurd (List.isEmpty_iff.mp h) hne⟩
  · rw [if_neg h]
    constructor
    · constructor
      · intro habs
        have hlen := congrArg String.length habs
        rw [String.length_append, String.length_append] at hlen
        simp [String.length_empty] at hlen
        exact absurd hlen.1.1 (by decide)
      · intro hnil
        exact absurd (List.isEmpty_iff.mpr hnil) h
    · intro _
      rfl

/-- Witness for C8 at the one-validator list: the apostrophe of the help text
is escaped inside the single list item. -/
theorem help_text_html_spec_witness :
    password_validators_help_text_html [Validator.numericPassword] =
      "<ul>" ++
        String.join ((password_validators_help_texts [Validator.numericPassword]).map
          (fun t => "<li>" ++ escapeHtml t ++ "</li>")) ++
        "</ul>" :=
  (help_text_html_spec.2 [Validator.numericPassword]).2 (by decide)

/-- Helper: when every record NAME resolves, get_password_validators returns
the pointwise-constructed validators in configuration order. -/
theorem get_password_validators_ok (load : String → List (List Char))
    (config : List ValidatorConfig)
    (h : ∀ c ∈ config, (import_string c.NAME).isSome) :
    ∃ vs, get_password_validators load config = Except.ok vs ∧
      List.Forall₂ (fun c v => ∃ k, import_string c.NAME = some k ∧
        v = buildValidator load k c.OPTIONS) config vs := by
  induction config with
  | nil => exact ⟨[], rfl, List.Forall₂.nil⟩
  | cons c rest ih =>
    have hc := h c (List.mem_cons_self c rest)
    obtain ⟨k, hk⟩ := Option.isSome_iff_exists.mp hc
    obtain ⟨vs, hvs, hfa⟩ := ih (fun x hx => h x (List.mem_cons_of_mem c hx))
    refine ⟨buildValidator load k c.OPTIONS :: vs, ?_, List.Forall₂.cons ⟨k, hk, rfl⟩ hfa⟩
    simp only [get_password_validators, hk, hvs]

/-- Helper: at the first record whose NAME does not resolve,
get_password_validators raises ImproperlyConfigured with a message that
contains the offending NAME. -/
theorem get_password_validators_err (load : String → List (List Char))
    (config : List ValidatorConfig)
    (h : ∃ c ∈ config, import_string c.NAME = none) :
    ∃ msg, get_password_validators load config = Except.error msg ∧
      ∃ c ∈ config, import_string c.NAME = none ∧ c.NAME.data <:+: msg.data := by
  induction config with
  | nil =>
    obtain ⟨c, hc, _⟩ := h
    cases hc
  | cons c rest ih =>
    by_cases hc : import_string c.NAME = none
    · refine ⟨"The module in NAME could not be imported: " ++ c.NAME ++
          ". Check your AUTH_PASSWORD_VALIDATORS setting.", ?_, c,
          List.mem_cons_self c rest, hc, ?_⟩
      · simp only [get_password_validators, hc]
      · refine ⟨("The module in NAME could not be imported: ").data,
          (". Check your AUTH_PASSWORD_VALIDATORS setting.").data, ?_⟩
        simp [String.data_append]
    · obtain ⟨k, hk⟩ := Option.ne_none_iff_exists'.mp hc
      have hrest : ∃ x ∈ rest, import_string x.NAME = none := by
        obtain ⟨x, hx, hxn⟩ := h
        rcases List.mem_cons.mp hx with rfl | hx2
        · exact absurd hxn hc
        · exact ⟨x, hx2, hxn⟩
      obtain ⟨msg, hmsg, x, hx, hxn, hinf⟩ := ih hrest
      refine ⟨msg, ?_, x, List.mem_cons_of_mem c hx, hxn, hinf⟩
      simp only [get_password_validators, hk, hmsg]

/-- C3: get_password_validators raises ImproperlyConfigured naming an
offending NAME whenever some record does not resolve, and otherwise returns
the validators in configuration order, each constructed by its resolved class
from its record OPTIONS. -/
theorem get_password_validators_spec (load : String → List (List Char))
    (config : List ValidatorConfig) :
    ((∃ c ∈ config, import_string c.NAME = none) →
      ∃ msg, get_password_validators load config = Except.error msg ∧
        ∃ c ∈ config, import_string c.NAME = none ∧ c.NAME.data <:+: msg.data) ∧
    ((∀ c ∈ config, (import_string c.NAME).isSome) →
      ∃ vs, get_password_validators load config = Except.ok vs ∧
        List.Forall₂ (fun c v => ∃ k, import_string c.NAME = some k ∧
          v = buildValidator load k c.OPTIONS) config vs) :=
  ⟨get_password_validators_err load config, get_password_validators_ok load config⟩

/-- Witness for C3: an unresolvable dotted path errors with a message that
contains it, and the MinimumLengthValidator path resolves and constructs. -/
theorem get_password_validators_spec_witness :
    (∃ msg, get_password_validators (fun _ => [])
        [⟨"nonexistent.module.Foo", {}⟩] = Except.error msg ∧
      ∃ c ∈ [(⟨"nonexistent.module.Foo", {}⟩ : ValidatorConfig)],
        import_string c.NAME = none ∧ c.NAME.data <:+: msg.data) ∧
    (∃ vs, get_password_validators (fun _ => [])
        [⟨"metashare.accounts.django_password_validators.MinimumLengthValidator",
          { min_length := some 10 }⟩] = Except.ok vs ∧
      List.Forall₂ (fun (c : ValidatorConfig) (v : Validator) =>
          ∃ k, import_string c.NAME = some k ∧
            v = buildValidator (fun _ => []) k c.OPTIONS)
        [⟨"metashare.accounts.django_password_validators.MinimumLengthValidator",
          { min_length := some 10 }⟩] vs) :=
  ⟨(get_password_validators_spec (fun _ => [])
      [⟨"nonexistent.module.Foo", {}⟩]).1
      ⟨⟨"nonexistent.module.Foo", {}⟩, List.mem_cons_self _ _, by decide⟩,
   (get_password_validators_spec (fun _ => [])
      [⟨"metashare.accounts.django_password_validators.MinimumLengthValidator",
        { min_length := some 10 }⟩]).2 (by decide)⟩

/-- Whether a constructed validator stores the options of its configuration
record: every option the record supplies for a field the validator exposes is
read back unchanged from the instance. -/
def storesConfigOptions (c : ValidatorConfig) (v : Validator) : Prop :=
  match v with
  | .minimumLength n => ∀ m, c.OPTIONS.min_length = some m → n = m
  | .userAttributeSimilarity ua ms =>
      (∀ x, c.OPTIONS.user_attributes = some x → ua = x) ∧
      (∀ q, c.OPTIONS.max_similarity = some q → ms = q)
  | .noRepeats n => ∀ m, c.OPTIONS.max_repeats = some m → n = m
  | _ => True

/-- Helper: a validator built from a record stores that record options. -/
theorem buildValidator_stores (load : String → List (List Char))
    (k : ValidatorClass) (c : ValidatorConfig) :
    storesConfigOptions c (buildValidator load k c.OPTIONS) := by
  cases k with
  | minimumLengthC =>
    intro m hm
    simp [buildValidator, storesConfigOptions, hm]
  | userAttributeSimilarityC =>
    constructor
    · intro x hx
      simp [buildValidator, storesConfigOptions, hx]
    · intro q hq
      simp [buildValidator, storesConfigOptions, hq]
  | noRepeatsC =>
    intro m hm
    simp [buildValidator, storesConfigOptions, hm]
  | commonPasswordC => trivial
  | numericPasswordC => trivial
  | atLeastOneDigitC => trivial
  | atLeastOnePunctuationC => trivial
  | atLeastOneUppercaseC => trivial
  | atLeastOneLowercaseC => trivial

/-- C9: for a configuration whose names all resolve, reading back the stored
constructor options of each validator returned by get_password_validators
reproduces the options of its configuration record. -/
theorem options_round_trip (load : String → List (List Char))
    (config : List ValidatorConfig)
    (h : ∀ c ∈ config, (import_string c.NAME).isSome) :
    ∃ vs, get_password_validators load config = Except.ok vs ∧
      List.Forall₂ storesConfigOptions config vs := by
  obtain ⟨vs, hvs, hfa⟩ := get_password_validators_ok load config h
  refine ⟨vs, hvs, hfa.imp ?_⟩
  rintro c v ⟨k, _, rfl⟩
  exact buildValidator_stores load k c

/-- Witness for C9 at a two-record configuration carrying min_length 10 and
max_repeats 3. -/
theorem options_round_trip_witness :
    ∃ vs, get_password_validators (fun _ => [])
        [⟨"metashare.accounts.django_password_validators.MinimumLengthValidator",
          { min_length := some 10 }⟩,
         ⟨"metashare.accounts.django_password_validators.NoRepeatsValidator",
          { max_repeats := some 3 }⟩] = Except.ok vs ∧
      List.Forall₂ storesConfigOptions
        [⟨"metashare.accounts.django_password_validators.MinimumLengthValidator",
          { min_length := some 10 }⟩,
         ⟨"metashare.accounts.django_password_validators.NoRepeatsValidator",
          { max_repeats := some 3 }⟩] vs :=
  options_round_trip (fun _ => []) _ (by decide)

/-- Unfolding lemma for validate_password. -/
theorem validate_password_def (password : List Char) (user : Option User)
    (vs : List Validator) :
    validate_password password user vs =
      if (vs.filterMap (fun v => v.validate password user)).isEmpty then Except.ok ()
      else Except.error (vs.filterMap (fun v => v.validate password user)) := rfl

/-- C1: validate_password returns normally exactly when every validator
passes; otherwise it raises one aggregate holding exactly the errors of the
failing validators in validator order, including the error of every failing
validator even when an earlier validator already failed; on the concrete
sequence [A fails, B passes, C fails] the aggregate holds exactly the errors
of A and C, in that order, with their code, message and params. -/
theorem validate_password_spec :
    (∀ (password : List Char) (user : Option User) (vs : List Validator),
      (validate_password password user vs = Except.ok () ↔
        ∀ v ∈ vs, v.validate password user = none) ∧
      (∀ es, validate_password password user vs = Except.error es →
        es = vs.filterMap (fun v => v.validate password user) ∧
        es ≠ [] ∧
        ∀ v ∈ vs, ∀ e, v.validate password user = some e → e ∈ es)) ∧
    validate_password ("12345".data) none
        [.minimumLength 100, .noRepeats 2, .numericPassword] =
      Except.error
        [{ message := "This password is too short. It must contain at least %(min_length)d characters."
         , code := "password_too_short", params := [("min_length", "100")] },
         { message := "This password is entirely numeric."
         , code := "password_entirely_numeric", params := [] }] := by
  constructor
  · intro password user vs
    rw [validate_password_def]
    by_cases h : (vs.filterMap (fun v => v.validate password user)).isEmpty = true
    · rw [if_pos h]
      have hnil := List.isEmpty_iff.mp h
      constructor
      · constructor
        · intro _
          exact List.filterMap_eq_nil_iff.mp hnil
        · intro _
          rfl
      · intro es hes
        cases hes
    · rw [if_neg h]
      constructor
      · constructor
        · intro habs
          cases habs
        · intro hall
          exact absurd (List.isEmpty_iff.mpr (List.filterMap_eq_nil_iff.mpr hall)) h
      · intro es hes
        have hes2 : vs.filterMap (fun v => v.validate password user) = es :=
          (Except.error.injEq _ _).mp hes.symm |>.symm
        refine ⟨hes2.symm, ?_, ?_⟩
        · intro hnil
          rw [← hes2] at hnil
          exact absurd (List.isEmpty_iff.mpr hnil) h
        · intro v hv e he
          rw [← hes2]
          exact List.mem_filterMap.mpr ⟨v, hv, he⟩
  · rfl

/-- Witness for C1: a password every listed validator accepts returns ok, and
in the error case of the concrete three-validator run the error of the last
failing validator is in the aggregate although the first validator already
failed. -/
theorem validate_password_spec_witness :
    validate_password ("Abc1!x".data) none
        [Validator.numericPassword, Validator.noRepeats 2] = Except.ok () ∧
    (∀ v ∈ [Validator.minimumLength 100, Validator.noRepeats 2,
        Validator.numericPassword],
      ∀ e, v.validate ("12345".data) none = some e →
        e ∈ [{ message := "This password is too short. It must contain at least %(min_length)d characters."
             , code := "password_too_short", params := [("min_length", "100")] },
             { message := "This password is entirely numeric."
             , code := "password_entirely_numeric", params := [] }]) :=
  ⟨(validate_password_spec.1 ("Abc1!x".data) none
      [Validator.numericPassword, Validator.noRepeats 2]).1.mpr (by decide),
   ((validate_password_spec.1 ("12345".data) none
      [Validator.minimumLength 100, Validator.noRepeats 2,
        Validator.numericPassword]).2 _ (by rfl)).2.2⟩

/-- qrMatches is the cardinality of the multiset intersection of the two
character sequences. -/
theorem qrMatches_eq_card_inter (a b : List Char) :
    qrMatches a b = Multiset.card ((a : Multiset Char) ∩ (b : Multiset Char)) := by
  rw [Multiset.coe_inter, Multiset.coe_card]
  rfl

/-- The match count is at most the length of the first sequence. -/
theorem qrMatches_le_left (a b : List Char) : qrMatches a b ≤ a.length := by
  rw [qrMatches_eq_card_inter]
  have := Multiset.card_le_card (Multiset.inter_le_left (a : Multiset Char) b)
  rwa [Multiset.coe_card] at this

/-- The match count is at most the length of the second sequence. -/
theorem qrMatches_le_right (a b : List Char) : qrMatches a b ≤ b.length := by
  rw [qrMatches_eq_card_inter]
  have := Multiset.card_le_card (Multiset.inter_le_right (a : Multiset Char) b)
  rwa [Multiset.coe_card] at this

/-- The match count saturates the combined length exactly when the two
sequences hold the same multiset of characters. -/
theorem two_qrMatches_eq_iff (a b : List Char) :
    2 * qrMatches a b = a.length + b.length ↔
      (a : Multiset Char) = (b : Multiset Char) := by
  constructor
  · intro h
    have h1 := qrMatches_le_left a b
    have h2 := qrMatches_le_right a b
    have ha : a.length ≤ qrMatches a b := by omega
    have hb : b.length ≤ qrMatches a b := by omega
    have hia : (a : Multiset Char) ∩ (b : Multiset Char) = (a : Multiset Char) :=
      Multiset.eq_of_le_of_card_le (Multiset.inter_le_left _ _)
        (by rw [Multiset.coe_card, ← qrMatches_eq_card_inter]; exact ha)
    have hib : (a : Multiset Char) ∩ (b : Multiset Char) = (b : Multiset Char) :=
      Multiset.eq_of_le_of_card_le (Multiset.inter_le_right _ _)
        (by rw [Multiset.coe_card, ← qrMatches_eq_card_inter]; exact hb)
    rw [← hia, hib]
  · intro h
    have hself : (a : Multiset Char) ∩ (b : Multiset Char) = (b : Multiset Char) := by
      rw [h]
      exact le_antisymm (Multiset.inter_le_left _ _)
        (Multiset.le_inter (le_refl _) (le_refl _))
    have hcard : qrMatches a b = b.length := by
      rw [qrMatches_eq_card_inter, hself, Multiset.coe_card]
    have hlen : a.length = b.length := by
      have := congrArg Multiset.card h
      rwa [Multiset.coe_card, Multiset.coe_card] at this
    omega

/-- quick_ratio never exceeds 1. -/
theorem quickRatio_le_one (a b : List Char) : quickRatio a b ≤ 1 := by
  unfold quickRatio
  by_cases h : a.length + b.length = 0
  · rw [if_pos h]
  · rw [if_neg h]
    have hpos : (0 : ℚ) < (a.length : ℚ) + (b.length : ℚ) := by
      have := Nat.pos_of_ne_zero h
      exact_mod_cast this
    rw [div_le_one hpos]
    have h1 := qrMatches_le_left a b
    have h2 := qrMatches_le_right a b
    have : 2 * qrMatches a b ≤ a.length + b.length := by omega
    exact_mod_cast this

/-- quick_ratio is exactly 1 precisely when the two sequences hold the same
multiset of characters (the empty-empty case included). -/
theorem quickRatio_eq_one_iff (a b : List Char) :
    quickRatio a b = 1 ↔ (a : Multiset Char) = (b : Multiset Char) := by
  unfold quickRatio
  by_cases h : a.length + b.length = 0
  · rw [if_pos h]
    have ha : a = [] := List.length_eq_zero.mp (by omega)
    have hb : b = [] := List.length_eq_zero.mp (by omega)
    subst ha
    subst hb
    simp
  · rw [if_neg h]
    have hpos : (0 : ℚ) < (a.length : ℚ) + (b.length : ℚ) := by
      have := Nat.pos_of_ne_zero h
      exact_mod_cast this
    rw [div_eq_one_iff_eq (ne_of_gt hpos), ← two_qrMatches_eq_iff]
    constructor
    · intro hq
      exact_mod_cast hq
    · intro hq
      exact_mod_cast hq

/-- With max_similarity 0 the rejection test triggers on every part. -/
theorem similarityTriggered_zero (password part : List Char) :
    similarityTriggered 0 password part = true := by
  simp [similarityTriggered]

/-- With max_similarity 1 the rejection test triggers exactly on parts whose
lowercased characters are a permutation of the lowercased password: the
similarity cannot exceed 1, so only the equality disjunct can fire, and it
fires exactly on character-multiset equality. -/
theorem similarityTriggered_one_iff (password part : List Char) :
    similarityTriggered 1 password part = true ↔
      (pyLower password).Perm (pyLower part) := by
  unfold similarityTriggered
  simp only [Bool.or_eq_true, decide_eq_true_eq]
  constructor
  · rintro ((h | h) | h)
    · exact absurd h (not_lt.mpr (quickRatio_le_one _ _))
    · exact Multiset.coe_eq_coe.mp ((quickRatio_eq_one_iff _ _).mp h)
    · exact absurd h one_ne_zero
  · intro h
    exact Or.inl (Or.inr ((quickRatio_eq_one_iff _ _).mpr (Multiset.coe_eq_coe.mpr h)))

/-- Helper: with max_similarity 0, an attribute bearing a nonempty string
value always raises. -/
theorem attrCheck_zero (password : List Char) (u : User) (n : String)
    (v : List Char) (hv : u.getattr n = some v) (hne : v ≠ []) :
    attrCheck 0 password u n =
      some { message := "The password is too similar to the %(verbose_name)s."
           , code := "password_too_similar"
           , params := [("verbose_name", u.verbose_name n)] } := by
  have hne2 : v.isEmpty = false := by
    cases v with
    | nil => exact absurd rfl hne
    | cons a l => rfl
  have hany : ((reSplitW v ++ [v]).any
      (fun part => similarityTriggered 0 password part)) = true :=
    List.any_eq_true.mpr
      ⟨v, List.mem_append.mpr (Or.inr (List.mem_singleton.mpr rfl)),
        similarityTriggered_zero password v⟩
  simp only [attrCheck, hv, hne2, hany, Bool.false_eq_true, if_false, if_true]

/-- Helper: whenever the per-attribute check raises, the attribute bears a
nonempty value with a triggering part, and the error code is
password_too_similar. -/
theorem attrCheck_some (ms : ℚ) (password : List Char) (u : User) (n : String)
    (e : ValidationError) (h : attrCheck ms password u n = some e) :
    ∃ v, u.getattr n = some v ∧ v ≠ [] ∧
      (∃ part ∈ reSplitW v ++ [v],
        similarityTriggered ms password part = true) ∧
      e.code = "password_too_similar" := by
  cases hg : u.getattr n with
  | none =>
    simp only [attrCheck, hg] at h
    cases h
  | some v =>
    simp only [attrCheck, hg] at h
    by_cases he : v.isEmpty = true
    · rw [if_pos he] at h
      cases h
    · rw [Bool.not_eq_true] at he
      rw [if_neg (by rw [he]; intro hfalse; cases hfalse)] at h
      by_cases hany : ((reSplitW v ++ [v]).any
          (fun part => similarityTriggered ms password part)) = true
      · rw [if_pos hany] at h
        have hvne : v ≠ [] := by
          intro hnil
          rw [hnil] at he
          cases he
        obtain ⟨part, hpart, htrig⟩ := List.any_eq_true.mp hany
        refine ⟨v, rfl, hvne, ⟨part, hpart, htrig⟩, ?_⟩
        cases h
        rfl
      · rw [if_neg hany] at h
        cases h

/-- A concrete user whose username attribute is ba and who bears no other
attribute. -/
def userBa : User :=
  { getattr := fun n => if n = "username" then some ("ba".data) else none
  , verbose_name := fun _ => "username" }

/-- Helper: the concrete rejection of password ab against username ba at
max_similarity 1: the two strings are anagrams, so quick_ratio is exactly 1. -/
theorem validate_ab_ba :
    UserAttributeSimilarityValidator.validate (.tuple ["username"]) 1 ("ab".data)
        (some userBa) =
      some { message := "The password is too similar to the %(verbose_name)s."
           , code := "password_too_similar"
           , params := [("verbose_name", "username")] } := by
  have htrig : similarityTriggered 1 ("ab".data) ("ba".data) = true :=
    (similarityTriggered_one_iff _ _).mpr (by decide)
  have hany : ((reSplitW ("ba".data) ++ [("ba".data)]).any
      (fun part => similarityTriggered 1 ("ab".data) part)) = true :=
    List.any_eq_true.mpr ⟨"ba".data,
      List.mem_append.mpr (Or.inr (List.mem_singleton.mpr rfl)), htrig⟩
  have hg : userBa.getattr "username" = some ("ba".data) := rfl
  have hie : ("ba".data).isEmpty = false := rfl
  have hattr : attrCheck 1 ("ab".data) userBa "username" =
      some { message := "The password is too similar to the %(verbose_name)s."
           , code := "password_too_similar"
           , params := [("verbose_name", "username")] } := by
    simp only [attrCheck, hg, hie, hany, Bool.false_eq_true, if_false, if_true]
    rfl
  show List.findSome? (attrCheck 1 ("ab".data) userBa) ["username"] = some _
  rw [List.findSome?_cons_of_isSome _ (by rw [hattr]; rfl), hattr]

/-- C2 counterexample: with max_similarity 1 and username value ba, the
password ab is rejected although its lowercase form is an exact match of
neither the attribute value nor any of its non-word-split parts: quick_ratio
is already 1 for anagrams. -/
theorem user_attribute_similarity_cex :
    UserAttributeSimilarityValidator.validate (.tuple ["username"]) 1 ("ab".data)
        (some userBa) =
      some { message := "The password is too similar to the %(verbose_name)s."
           , code := "password_too_similar"
           , params := [("verbose_name", "username")] } ∧
    (reSplitW ("ba".data) ++ [("ba".data)]).all
      (fun part => !(pyLower ("ab".data) == pyLower part)) = true :=
  ⟨validate_ab_ba, by decide⟩

/-- C2 amended: for a user bearing every configured attribute as a nonempty
string, a validator with max_similarity 0 always fails with code
password_too_similar, whatever the password and the attribute content; a
validator with max_similarity 1 fails only when the lowercased password is a
character permutation (anagram) of the lowercased attribute value or of one
of its non-word-split parts, case-insensitive exact matches being the
order-preserving special case. -/
theorem user_attribute_similarity_spec (ua : PyStrOrTuple) (u : User)
    (password : List Char) :
    (ua.iterNames ≠ [] →
      (∀ n ∈ ua.iterNames, ∃ v, u.getattr n = some v ∧ v ≠ []) →
      ∃ e, UserAttributeSimilarityValidator.validate ua 0 password (some u) =
          some e ∧ e.code = "password_too_similar") ∧
    (∀ e, UserAttributeSimilarityValidator.validate ua 1 password (some u) =
        some e →
      ∃ n ∈ ua.iterNames, ∃ v, u.getattr n = some v ∧ v ≠ [] ∧
        ∃ part ∈ reSplitW v ++ [v], (pyLower password).Perm (pyLower part)) := by
  constructor
  · intro hne hbear
    cases hnames : ua.iterNames with
    | nil => exact absurd hnames hne
    | cons n rest =>
      obtain ⟨v, hv, hvne⟩ := hbear n (hnames ▸ List.mem_cons_self n rest)
      have hfn := attrCheck_zero password u n v hv hvne
      refine ⟨{ message := "The password is too similar to the %(verbose_name)s."
              , code := "password_too_similar"
              , params := [("verbose_name", u.verbose_name n)] }, ?_, rfl⟩
      show ua.iterNames.findSome? (attrCheck 0 password u) = some _
      rw [hnames, List.findSome?_cons_of_isSome _ (by rw [hfn]; rfl), hfn]
  · intro e he
    have hf : ua.iterNames.findSome? (attrCheck 1 password u) = some e := he
    obtain ⟨l₁, n, l₂, hsplit, hfn, -⟩ := List.findSome?_eq_some_iff.mp hf
    obtain ⟨v, hv, hvne, ⟨part, hpart, htrig⟩, -⟩ :=
      attrCheck_some 1 password u n e hfn
    refine ⟨n, ?_, v, hv, hvne, part, hpart,
      (similarityTriggered_one_iff password part).mp htrig⟩
    rw [hsplit]
    exact List.mem_append.mpr (Or.inr (List.mem_cons_self _ _))

/-- Witness for C2 amended: at max_similarity 0 the user bearing username ba
is rejected whatever the password, and the concrete rejection of ab against
ba at max_similarity 1 produces the anagram part ba. -/
theorem user_attribute_similarity_spec_witness :
    (∃ e, UserAttributeSimilarityValidator.validate (.tuple ["username"]) 0
        ("xyz".data) (some userBa) = some e ∧
        e.code = "password_too_similar") ∧
    (∃ n ∈ (PyStrOrTuple.tuple ["username"]).iterNames, ∃ v,
      userBa.getattr n = some v ∧ v ≠ [] ∧
      ∃ part ∈ reSplitW v ++ [v], (pyLower ("ab".data)).Perm (pyLower part)) :=
  ⟨(user_attribute_similarity_spec (.tuple ["username"]) userBa ("xyz".data)).1
      (by decide)
      (fun n hn => ⟨"ba".data, by rw [List.mem_singleton.mp hn]; rfl, by decide⟩),
   (user_attribute_similarity_spec (.tuple ["username"]) userBa ("ab".data)).2
      _ validate_ab_ba⟩

/-- A concrete user bearing username alice and none of the one-letter
attributes. -/
def userAlice : User :=
  { getattr := fun n => if n = "username" then some ("alice".data) else none
  , verbose_name := fun _ => "username" }

/-- C10: DEFAULT_USER_ATTRIBUTES is the plain string username, not a tuple,
so the default validator iterates the eight one-letter attribute names u, s,
e, r, n, a, m, e; a user bearing no string attribute with one of those names
passes every password under a default-constructed validator (max_similarity
one half), in particular the password equal to the username. -/
theorem default_user_attributes_spec :
    DEFAULT_USER_ATTRIBUTES.iterNames = ["u", "s", "e", "r", "n", "a", "m", "e"] ∧
    (∀ (u : User) (password : List Char),
      (∀ n ∈ DEFAULT_USER_ATTRIBUTES.iterNames, u.getattr n = none) →
      UserAttributeSimilarityValidator.validate DEFAULT_USER_ATTRIBUTES (1 / 2)
        password (some u) = none) ∧
    userAlice.getattr "username" = some ("alice".data) ∧
    UserAttributeSimilarityValidator.validate DEFAULT_USER_ATTRIBUTES (1 / 2)
      ("alice".data) (some userAlice) = none := by
  refine ⟨rfl, ?_, rfl, rfl⟩
  intro u password hnone
  show DEFAULT_USER_ATTRIBUTES.iterNames.findSome? (attrCheck (1 / 2) password u) = none
  apply List.findSome?_eq_none_iff.mpr
  intro n hn
  simp only [attrCheck, hnone n hn]

/-- Witness for C10: the default-constructed validator passes a fresh
password for the user alice bearing only the username attribute. -/
theorem default_user_attributes_spec_witness :
    UserAttributeSimilarityValidator.validate DEFAULT_USER_ATTRIBUTES (1 / 2)
      ("secret".data) (some userAlice) = none :=
  default_user_attributes_spec.2.1 userAlice ("secret".data) (by decide)

end DjangoPasswordValidators
